import Mathlib

/-!
# Verification of the simpledb SQL helper layer

Shallow embedding of the query-string builder, the record wrapper and the
connection-effect behaviour of the read/write helpers of the `simpledb`
repository (`base.py`, `sqlite.py`, `simpledb.py`).

Python strings are modelled as Lean `String` (a list of code points, matching
Python's character indexing).  The Python string primitives used by the source
(`lstrip`, slicing, `upper`, `split`, `join`) are modelled over `String.data`.
Methods that touch the database connection are modelled by the list of
connection events they emit (`execute` / `commit` / `rollback`), in order.
-/

/-- Characters treated as whitespace by Python's `str.lstrip()` / `str.split()`
(space, tab, newline, carriage return, vertical tab, form feed). -/
def isPySpace (c : Char) : Bool :=
  c == ' ' || c == '\t' || c == '\n' || c == '\r' ||
  c == Char.ofNat 11 || c == Char.ofNat 12

/-- Python `s.lstrip()`: remove leading whitespace. -/
def pyLstrip (s : String) : String := ⟨s.data.dropWhile isPySpace⟩

/-- Python `s[:n]`: first `n` characters. -/
def pyTake (s : String) (n : Nat) : String := ⟨s.data.take n⟩

/-- Python `s[n:]`: all characters from position `n` on. -/
def pyDrop (s : String) (n : Nat) : String := ⟨s.data.drop n⟩

/-- Python `s.upper()` (ASCII range, which is all the source uses). -/
def pyUpper (s : String) : String := ⟨s.data.map Char.toUpper⟩

/-- Python `sep.join(l)`. -/
def pyJoin (sep : String) : List String → String
  | [] => ""
  | [x] => x
  | x :: y :: xs => x ++ sep ++ pyJoin sep (y :: xs)

/-- Python `s.split()` with no argument: split on runs of whitespace,
discarding empty chunks. -/
def pySplit (s : String) : List String :=
  ((s.data.splitOnP isPySpace).filter (fun l => l ≠ [])).map (fun l => ⟨l⟩)

/-- A clause argument that may be a single string or a list of strings
(`table_clause` / `column_clause` in `build_sql_query`). -/
inductive StrOrList where
  | str (s : String)
  | list (l : List String)

/-- Python: `', '.join(x)` when `x` is a list, `x` itself when it is a string. -/
def flattenClause : StrOrList → String
  | .str s => s
  | .list l => pyJoin ", " l

/-- The `join_clause` argument: a plain string or a list of
`(join_type, join_table, condition)` triples. -/
inductive JoinClause where
  | str (s : String)
  | list (l : List (String × String × String))

/-- The keyword-stripping step of `build_sql_query` (base.py:58-61 and
analogues): if the first `n` characters of the left-stripped clause spell `kw`
after upper-casing, the left-stripped clause with those `n` characters removed
replaces the clause; otherwise the clause is untouched.  The source hardcodes
`n` (5 for WHERE, 8 for GROUP BY, 6 for HAVING, 8 for ORDER BY). -/
def stripKeyword (kw : String) (n : Nat) (clause : String) : String :=
  if pyUpper (pyTake (pyLstrip clause) n) = kw then pyDrop (pyLstrip clause) n
  else clause

/-- One `(join_type, join_table, condition)` triple rendered by the loop at
base.py:52-55: append `" JOIN"` unless the last whitespace-separated token of
`join_type` is exactly `"JOIN"`, upper-case, and format
`' %s %s ON %s'`.  `none` models the `IndexError` Python raises when
`join_type.split()` is empty. -/
def joinSegment : String × String × String → Option String
  | (joinType, joinTable, condition) =>
    match (pySplit joinType).getLast? with
    | none => none
    | some last =>
      let jt := if last = "JOIN" then joinType else joinType ++ " JOIN"
      some (" " ++ pyUpper jt ++ " " ++ joinTable ++ " ON " ++ condition)

/-- All join triples rendered in order. -/
def joinSegments : List (String × String × String) → Option String
  | [] => some ""
  | t :: ts =>
    match joinSegment t, joinSegments ts with
    | some s, some r => some (s ++ r)
    | _, _ => none

/-- `build_sql_query` from base.py:15-75.  Arguments appear in the source
order `(table, column, join, where, having, order, group)`; clauses are
appended in the order table, join, WHERE, GROUP BY, HAVING, ORDER BY.
`none` models the `IndexError` of a whitespace-only join type. -/
def build_sql_query (table_clause : StrOrList) (column_clause : StrOrList)
    (join_clause : JoinClause) (where_clause : String) (having_clause : String)
    (order_clause : String) (group_clause : String) : Option String :=
  let t := flattenClause table_clause
  let c := flattenClause column_clause
  let q0 := "SELECT " ++ c ++ " FROM " ++ t
  let q1 : Option String :=
    match join_clause with
    | .str s => if s ≠ "" then some (q0 ++ " " ++ s) else some q0
    | .list l => if l ≠ [] then (joinSegments l).map (fun js => q0 ++ js)
                 else some q0
  q1.map (fun q1 =>
    let q2 := if where_clause ≠ "" then
                q1 ++ " WHERE " ++ stripKeyword "WHERE" 5 where_clause
              else q1
    let q3 := if group_clause ≠ "" then
                q2 ++ " GROUP BY " ++ stripKeyword "GROUP BY" 8 group_clause
              else q2
    let q4 := if having_clause ≠ "" then
                q3 ++ " HAVING " ++ stripKeyword "HAVING" 6 having_clause
              else q3
    if order_clause ≠ "" then
      q4 ++ " ORDER BY " ++ stripKeyword "ORDER BY" 8 order_clause
    else q4)

/-- `build_sql_query` from simpledb.py:12-60: the legacy revision, with no
join support and a lower-case `from` in `'SELECT %s from %s'`. -/
def simpledb_build_sql_query (table_clause : StrOrList)
    (column_clause : StrOrList) (where_clause : String)
    (having_clause : String) (order_clause : String)
    (group_clause : String) : String :=
  let t := flattenClause table_clause
  let c := flattenClause column_clause
  let q1 := "SELECT " ++ c ++ " from " ++ t
  let q2 := if where_clause ≠ "" then
              q1 ++ " WHERE " ++ stripKeyword "WHERE" 5 where_clause
            else q1
  let q3 := if group_clause ≠ "" then
              q2 ++ " GROUP BY " ++ stripKeyword "GROUP BY" 8 group_clause
            else q2
  let q4 := if having_clause ≠ "" then
              q3 ++ " HAVING " ++ stripKeyword "HAVING" 6 having_clause
            else q3
  if order_clause ≠ "" then
    q4 ++ " ORDER BY " ++ stripKeyword "ORDER BY" 8 order_clause
  else q4

/-- A database value as it travels through the wrapper (the wrapper never
inspects values, so a few representative constructors suffice). -/
inductive PyVal where
  | null
  | int (i : Int)
  | str (s : String)
  deriving DecidableEq

/-- One fetched row as returned by a dictionary cursor: an ordered mapping
from column names to values; also the shape of the `rec` dicts handed to
`add_records` / `update_row`. -/
abbrev Row := List (String × PyVal)

/-- `SQLRecord.__getitem__` (base.py:91-94): dictionary lookup by column name
(first matching key, as in a dict whose keys are unique); `none` models the
not-found exception raised for an absent column. -/
def recGetItem : Row → String → Option PyVal
  | [], _ => none
  | kv :: rest, name => if kv.1 == name then some kv.2 else recGetItem rest name

/-- Python `name in self._sql_rec`: membership among the row's keys. -/
def recContains (rec : Row) (name : String) : Bool :=
  rec.any (fun kv => kv.1 == name)

/-- `SQLRecord.get` (base.py:99-103): return the stored value when the name is
among the row's keys, the caller-supplied default otherwise.  (The inner
`none` branch is unreachable: a contained key is always found.) -/
def recGet (rec : Row) (name : String) (default : PyVal) : PyVal :=
  if recContains rec name then
    match recGetItem rec name with
    | some v => v
    | none => default
  else default

/-- One event on the database connection: a cursor `execute` with its bound
parameter values, a `commit`, or a `rollback`. -/
inductive DBEvent where
  | execute (sql : String) (values : List PyVal)
  | commit
  | rollback
  deriving DecidableEq

/-- Connection events of `SQLDB.query_generic` (base.py:152-199): one cursor
`execute` of the query with its parameter values.  Printing (`verbose`,
`errf`, `print_table`) and fetching touch no transaction state, and neither
branch commits or rolls back. -/
def query_generic_events (query : String) (values : List PyVal) :
    List DBEvent :=
  [DBEvent.execute query values]

/-- The INSERT statement built for one record by `SQLDB.add_records`
(base.py:416-417); `SQLiteDB.add_records` (sqlite.py:234-235) builds the same
statement with placeholder `"?"`, the base class uses `self._placeholder`
(`'%s'`). -/
def add_records_sql (placeholder : String) (table : String) (rec : Row) :
    String :=
  "INSERT INTO " ++ table ++ " (" ++ pyJoin ", " (rec.map (fun kv => kv.1)) ++
    ") VALUES (" ++ pyJoin ", " (List.replicate rec.length placeholder) ++ ")"

/-- Connection events of `SQLDB.add_records` (base.py:399-425): one execute
per record, then rollback on dry run, commit otherwise. -/
def base_add_records_events (placeholder : String) (table : String)
    (recs : List Row) (dryRun : Bool) : List DBEvent :=
  recs.map (fun rec =>
    DBEvent.execute (add_records_sql placeholder table rec)
      (rec.map (fun kv => kv.2))) ++
  (if dryRun then [DBEvent.rollback] else [DBEvent.commit])

/-- Connection events of `SQLiteDB.add_records` (sqlite.py:217-239): one
execute per record, then commit unless dry run — no rollback on dry run. -/
def sqlite_add_records_events (table : String) (recs : List Row)
    (dryRun : Bool) : List DBEvent :=
  recs.map (fun rec =>
    DBEvent.execute (add_records_sql "?" table rec)
      (rec.map (fun kv => kv.2))) ++
  (if dryRun then [] else [DBEvent.commit])

/-- The DELETE statement built by `SQLDB.delete_records` (base.py:443-447)
and identically by `SQLiteDB.delete_records` (sqlite.py:258-262): strip a
leading WHERE keyword, then append the clause when the stripped result is
non-empty. -/
def delete_records_sql (table : String) (whereClause : String) : String :=
  let w := stripKeyword "WHERE" 5 whereClause
  "DELETE FROM " ++ table ++ (if w ≠ "" then " WHERE " ++ w else "")

/-- Connection events of `SQLDB.delete_records` (base.py:427-453). -/
def base_delete_records_events (table : String) (whereClause : String)
    (dryRun : Bool) : List DBEvent :=
  query_generic_events (delete_records_sql table whereClause) [] ++
  (if dryRun then [DBEvent.rollback] else [DBEvent.commit])

/-- Connection events of `SQLiteDB.delete_records` (sqlite.py:241-266):
commit unless dry run, never a rollback. -/
def sqlite_delete_records_events (table : String) (whereClause : String)
    (dryRun : Bool) : List DBEvent :=
  query_generic_events (delete_records_sql table whereClause) [] ++
  (if dryRun then [] else [DBEvent.commit])

/-- The UPDATE statement built by `SQLDB.update_row` (base.py:474-480) and,
with placeholder `"?"`, by `SQLiteDB.update_row` (sqlite.py:309-315). -/
def update_row_sql (placeholder : String) (table : String) (colDict : Row)
    (whereClause : String) : String :=
  let s := "UPDATE " ++ table ++ " SET " ++
    pyJoin ", " (colDict.map (fun kv => kv.1 ++ " = " ++ placeholder))
  let w := stripKeyword "WHERE" 5 whereClause
  s ++ (if w ≠ "" then " WHERE " ++ w else "")

/-- Connection events of `SQLDB.update_row` (base.py:455-487). -/
def base_update_row_events (table : String) (colDict : Row)
    (whereClause : String) (dryRun : Bool) : List DBEvent :=
  [DBEvent.execute (update_row_sql "%s" table colDict whereClause)
      (colDict.map (fun kv => kv.2))] ++
  (if dryRun then [DBEvent.rollback] else [DBEvent.commit])

/-- Connection events of `SQLiteDB.update_row` (sqlite.py:290-320): commit
unless dry run, never a rollback. -/
def sqlite_update_row_events (table : String) (colDict : Row)
    (whereClause : String) (dryRun : Bool) : List DBEvent :=
  [DBEvent.execute (update_row_sql "?" table colDict whereClause)
      (colDict.map (fun kv => kv.2))] ++
  (if dryRun then [] else [DBEvent.commit])

/-- The CREATE INDEX statement formatted by `create_index` (base.py:546-549,
sqlite.py:397-400): a falsy (`None` or empty) index name defaults to
`<col>_IDX`. -/
def create_index_sql (table : String) (col : String)
    (idxName : Option String) : String :=
  let idx := match idxName with
    | some n => if n ≠ "" then n else col ++ "_IDX"
    | none => col ++ "_IDX"
  "CREATE INDEX " ++ idx ++ " ON " ++ table ++ "(" ++ col ++ ")"

/-- Connection events of `SQLDB.create_index` (base.py:531-551): execute the
CREATE INDEX statement, then commit. -/
def base_create_index_events (table : String) (col : String)
    (idxName : Option String) : List DBEvent :=
  query_generic_events (create_index_sql table col idxName) [] ++
  [DBEvent.commit]

/-- Connection events of `SQLiteDB.create_index` (sqlite.py:382-400): the
method formats the CREATE INDEX string into a local variable and returns —
it never calls the executor and never commits, so the connection sees no
event at all. -/
def sqlite_create_index_events (_table : String) (_col : String)
    (_idxName : Option String) : List DBEvent :=
  []

/-- Transactional view of the connection: the rows visible to other
connections (`committed`) and the rows of the current transaction
(`pending`). -/
structure TxState where
  committed : List Row
  pending : List Row

/-- How one connection event transforms the transactional state, for an
arbitrary interpretation `exec` of SQL statements on the row store:
`commit` publishes the pending rows, `rollback` restores the committed
ones. -/
def applyEvent (exec : String → List PyVal → List Row → List Row)
    (st : TxState) : DBEvent → TxState
  | DBEvent.execute sql vals => { st with pending := exec sql vals st.pending }
  | DBEvent.commit => { st with committed := st.pending }
  | DBEvent.rollback => { st with pending := st.committed }

/-- Run a list of connection events in order. -/
def runEvents (exec : String → List PyVal → List Row → List Row)
    (st : TxState) : List DBEvent → TxState
  | [] => st
  | e :: es => runEvents exec (applyEvent exec st e) es

/-- `pat` occurs as a contiguous substring of `l`. -/
def charListHasInfix (pat : List Char) : List Char → Bool
  | [] => pat.isPrefixOf []
  | c :: cs => pat.isPrefixOf (c :: cs) || charListHasInfix pat cs

/-- Python `pat in s`: substring test. -/
def hasSubstring (s : String) (pat : String) : Bool :=
  charListHasInfix pat.data s.data

/-- A trace without a commit leaves the committed rows untouched. -/
theorem runEvents_committed_of_no_commit
    (exec : String → List PyVal → List Row → List Row)
    (evs : List DBEvent) (st : TxState) (h : DBEvent.commit ∉ evs) :
    (runEvents exec st evs).committed = st.committed := by
  induction evs generalizing st with
  | nil => rfl
  | cons e es ih =>
    have he : e ≠ DBEvent.commit := fun hc => h (hc ▸ List.mem_cons_self e es)
    have hes : DBEvent.commit ∉ es := fun hc => h (List.mem_cons_of_mem e hc)
    have : (applyEvent exec st e).committed = st.committed := by
      cases e with
      | execute sql vals => rfl
      | commit => exact absurd rfl he
      | rollback => rfl
    rw [runEvents, ih _ hes, this]

theorem where_append_ne_empty (p : String) : ("WHERE" ++ p) ≠ "" := by
  intro hc
  have h2 : ('W' :: ("HERE".data ++ p.data)) = ([] : List Char) :=
    congrArg String.data hc
  exact List.noConfusion h2

theorem where_sp_append_ne_empty (p : String) : ("WHERE " ++ p) ≠ "" := by
  intro hc
  have h2 : ('W' :: ("HERE ".data ++ p.data)) = ([] : List Char) :=
    congrArg String.data hc
  exact List.noConfusion h2

theorem strip_where_of_kw_append (p : String) :
    stripKeyword "WHERE" 5 ("WHERE" ++ p) = p := rfl

theorem strip_where_of_kw_sp_append (p : String) :
    stripKeyword "WHERE" 5 ("WHERE " ++ p) = " " ++ p := rfl

theorem strip_where_of_not_kw (w : String)
    (h : pyUpper (pyTake (pyLstrip w) 5) ≠ "WHERE") :
    stripKeyword "WHERE" 5 w = w := by
  unfold stripKeyword
  rw [if_neg h]

theorem strip_where_of_kw (w : String)
    (h : pyUpper (pyTake (pyLstrip w) 5) = "WHERE") :
    stripKeyword "WHERE" 5 w = pyDrop (pyLstrip w) 5 := by
  unfold stripKeyword
  rw [if_pos h]

/-- C1 counterexample: with table "t", columns "*" and predicate
p = "x = 1", passing where_clause = "WHERE " + p does not produce the same
query string as passing p itself — stripping removes only the five keyword
letters, so the space survives and the first query carries a double space
after WHERE. -/
theorem C1_counterexample :
    build_sql_query (.str "t") (.str "*") (.str "") ("WHERE " ++ "x = 1") "" "" "" ≠
      build_sql_query (.str "t") (.str "*") (.str "") "x = 1" "" "" "" := by
  decide

/-- C1 amended: stripping removes exactly the five letters of the keyword, so
where_clause = "WHERE" + p (no trailing space) yields the identical query as
the bare predicate p, while where_clause = "WHERE " + p yields the bare-p
query with one extra space after the WHERE keyword. -/
theorem C1_amended (tc cc : StrOrList) (p : String) (h1 : p ≠ "")
    (h2 : pyUpper (pyTake (pyLstrip p) 5) ≠ "WHERE") :
    build_sql_query tc cc (.str "") ("WHERE" ++ p) "" "" "" =
      build_sql_query tc cc (.str "") p "" "" "" ∧
    build_sql_query tc cc (.str "") p "" "" "" =
      some ("SELECT " ++ flattenClause cc ++ " FROM " ++ flattenClause tc ++
        " WHERE " ++ p) ∧
    build_sql_query tc cc (.str "") ("WHERE " ++ p) "" "" "" =
      some ("SELECT " ++ flattenClause cc ++ " FROM " ++ flattenClause tc ++
        " WHERE " ++ (" " ++ p)) := by
  have e1 := strip_where_of_kw_append p
  have e2 := strip_where_of_kw_sp_append p
  have e3 := strip_where_of_not_kw p h2
  have hne1 := where_append_ne_empty p
  have hne2 := where_sp_append_ne_empty p
  refine ⟨?_, ?_, ?_⟩ <;>
    simp [build_sql_query, hne1, hne2, h1, e1, e2, e3]

/-- C1 witness: concrete instantiation at table "t", columns "*",
p = "x = 1". -/
theorem C1_witness :
    build_sql_query (.str "t") (.str "*") (.str "") ("WHERE" ++ "x = 1") "" "" "" =
      build_sql_query (.str "t") (.str "*") (.str "") "x = 1" "" "" "" ∧
    build_sql_query (.str "t") (.str "*") (.str "") "x = 1" "" "" "" =
      some "SELECT * FROM t WHERE x = 1" ∧
    build_sql_query (.str "t") (.str "*") (.str "") ("WHERE " ++ "x = 1") "" "" "" =
      some "SELECT * FROM t WHERE  x = 1" := by
  obtain ⟨a, b, c⟩ :=
    C1_amended (.str "t") (.str "*") "x = 1" (by decide) (by decide)
  exact ⟨a, b.trans (by decide), c.trans (by decide)⟩

/-- C2: for non-empty string fragments, the output places the clauses in the
fixed order table, join, WHERE, GROUP BY, HAVING, ORDER BY, even though the
arguments are supplied in the order (table, column, join, where, having,
order, group). -/
theorem C2_clause_order (tc cc : StrOrList) (j w g h o : String)
    (hj : j ≠ "") (hw : w ≠ "") (hg : g ≠ "") (hh : h ≠ "") (ho : o ≠ "") :
    build_sql_query tc cc (.str j) w h o g =
      some ("SELECT " ++ flattenClause cc ++ " FROM " ++ flattenClause tc ++
        " " ++ j ++
        " WHERE " ++ stripKeyword "WHERE" 5 w ++
        " GROUP BY " ++ stripKeyword "GROUP BY" 8 g ++
        " HAVING " ++ stripKeyword "HAVING" 6 h ++
        " ORDER BY " ++ stripKeyword "ORDER BY" 8 o) := by
  simp [build_sql_query, hj, hw, hg, hh, ho]

/-- C2 witness: concrete instantiation with every clause supplied. -/
theorem C2_witness :
    build_sql_query (.str "t") (.str "*")
        (.str "LEFT JOIN t2 ON t.id = t2.id") "x = 1" "n > 2" "x ASC" "x" =
      some ("SELECT * FROM t LEFT JOIN t2 ON t.id = t2.id WHERE x = 1" ++
        " GROUP BY x HAVING n > 2 ORDER BY x ASC") := by
  exact (C2_clause_order (.str "t") (.str "*") "LEFT JOIN t2 ON t.id = t2.id"
    "x = 1" "x" "n > 2" "x ASC" (by decide) (by decide) (by decide)
    (by decide) (by decide)).trans (by decide)

/-- C3 counterexample: the join-kind "left join" already ends in a join token
(lower case), yet the builder appends a second JOIN, because the check
compares the last token against the upper-case literal "JOIN"
case-sensitively. -/
theorem C3_counterexample :
    build_sql_query (.str "t1") (.str "*")
        (.list [("left join", "t2", "t1.id = t2.id")]) "" "" "" "" =
      some "SELECT * FROM t1 LEFT JOIN JOIN t2 ON t1.id = t2.id" ∧
    "SELECT * FROM t1 LEFT JOIN JOIN t2 ON t1.id = t2.id" ≠
      "SELECT * FROM t1 LEFT JOIN t2 ON t1.id = t2.id" := by
  decide

/-- C3 amended: "JOIN" is appended to the join-kind exactly when its last
whitespace-separated token differs from the upper-case literal "JOIN" (the
comparison is case-sensitive, so a lower-case "join" gains a second JOIN);
then the join-kind is upper-cased.  The triple ("left", "t2",
"t1.id = t2.id") yields " LEFT JOIN t2 ON t1.id = t2.id". -/
theorem C3_amended (jt tbl cond last : String) :
    ((pySplit jt).getLast? = some "JOIN" →
      joinSegment (jt, tbl, cond) =
        some (" " ++ pyUpper jt ++ " " ++ tbl ++ " ON " ++ cond)) ∧
    ((pySplit jt).getLast? = some last → last ≠ "JOIN" →
      joinSegment (jt, tbl, cond) =
        some (" " ++ pyUpper (jt ++ " JOIN") ++ " " ++ tbl ++ " ON " ++ cond)) ∧
    build_sql_query (.str "t1") (.str "*")
        (.list [("left", "t2", "t1.id = t2.id")]) "" "" "" "" =
      some "SELECT * FROM t1 LEFT JOIN t2 ON t1.id = t2.id" := by
  refine ⟨?_, ?_, by decide⟩
  · intro h
    simp [joinSegment, h]
  · intro h hne
    simp [joinSegment, h, hne]

/-- C3 witness: a join-kind already ending in the upper-case token gains no
second JOIN; the lower-case "left join" does. -/
theorem C3_witness :
    joinSegment ("LEFT JOIN", "t2", "c") =
      some (" " ++ pyUpper "LEFT JOIN" ++ " " ++ "t2" ++ " ON " ++ "c") ∧
    joinSegment ("left join", "t2", "c") =
      some (" " ++ pyUpper ("left join" ++ " JOIN") ++ " " ++ "t2" ++
        " ON " ++ "c") := by
  exact ⟨(C3_amended "LEFT JOIN" "t2" "c" "JOIN").1 (by decide),
    (C3_amended "left join" "t2" "c" "join").2.1 (by decide) (by decide)⟩

/-- C8 counterexample: a where-clause whose body carries its own duplicated
keyword reaches the output verbatim, so the result does contain the sequence
"WHERE WHERE". -/
theorem C8_counterexample :
    build_sql_query (.str "t") (.str "*") (.str "") "a WHERE WHERE b" "" "" "" =
      some "SELECT * FROM t WHERE a WHERE WHERE b" ∧
    hasSubstring "SELECT * FROM t WHERE a WHERE WHERE b" "WHERE WHERE" = true := by
  decide

/-- C8 amended: with all optional clauses empty the result is exactly
"SELECT columns FROM table" with nothing appended; leading-keyword stripping
prevents the duplication only for a clause passed with a leading WHERE
keyword (e.g. "WHERE x > 1" does not produce "WHERE WHERE"), while a clause
body containing the duplicated sequence still reaches the output. -/
theorem C8_amended (tc cc : StrOrList) :
    build_sql_query tc cc (.str "") "" "" "" "" =
      some ("SELECT " ++ flattenClause cc ++ " FROM " ++ flattenClause tc) ∧
    (build_sql_query (.str "t") (.str "*") (.str "") "WHERE x > 1" "" "" "" =
      some "SELECT * FROM t WHERE  x > 1" ∧
     hasSubstring "SELECT * FROM t WHERE  x > 1" "WHERE WHERE" = false) := by
  exact ⟨rfl, by decide⟩

/-- C9 counterexample: the legacy builder in simpledb.py writes the FROM
keyword in lower case, so its output for table list ["t1","t2"] and column
list ["a","b"] is not the claimed string. -/
theorem C9_counterexample :
    simpledb_build_sql_query (.list ["t1", "t2"]) (.list ["a", "b"]) "" "" "" "" ≠
      "SELECT a, b FROM t1, t2" := by
  decide

/-- C9 amended: list-valued table and column clauses are joined with ", ";
the base builder returns exactly "SELECT a, b FROM t1, t2", while the legacy
simpledb builder returns the same query with a lower-case "from" keyword. -/
theorem C9_amended :
    build_sql_query (.list ["t1", "t2"]) (.list ["a", "b"]) (.str "") "" "" "" "" =
      some "SELECT a, b FROM t1, t2" ∧
    simpledb_build_sql_query (.list ["t1", "t2"]) (.list ["a", "b"]) "" "" "" "" =
      "SELECT a, b from t1, t2" := by
  decide

/-- C4 counterexample: a dry-run SQLiteDB.add_records never invokes rollback —
the override merely skips the commit. -/
theorem C4_counterexample :
    DBEvent.rollback ∉
      sqlite_add_records_events "t" [[("a", PyVal.int 1)]] true := by
  decide

/-- C4 amended: with dry_run=True no write helper commits, so the committed
row store is unchanged afterwards; the base SQLDB helpers (add_records,
delete_records, update_row) additionally invoke rollback, while the SQLiteDB
overrides only omit the commit and never call rollback. -/
theorem C4_amended (ph t w : String) (recs : List Row) (cd : Row)
    (exec : String → List PyVal → List Row → List Row) (st : TxState) :
    (DBEvent.commit ∉ base_add_records_events ph t recs true ∧
     DBEvent.rollback ∈ base_add_records_events ph t recs true) ∧
    (DBEvent.commit ∉ base_delete_records_events t w true ∧
     DBEvent.rollback ∈ base_delete_records_events t w true) ∧
    (DBEvent.commit ∉ base_update_row_events t cd w true ∧
     DBEvent.rollback ∈ base_update_row_events t cd w true) ∧
    (DBEvent.commit ∉ sqlite_add_records_events t recs true ∧
     DBEvent.commit ∉ sqlite_delete_records_events t w true ∧
     DBEvent.commit ∉ sqlite_update_row_events t cd w true) ∧
    (runEvents exec st (base_add_records_events ph t recs true)).committed =
      st.committed ∧
    (runEvents exec st (sqlite_add_records_events t recs true)).committed =
      st.committed := by
  have hb : DBEvent.commit ∉ base_add_records_events ph t recs true := by
    simp [base_add_records_events]
  have hs : DBEvent.commit ∉ sqlite_add_records_events t recs true := by
    simp [sqlite_add_records_events]
  refine ⟨⟨hb, ?_⟩, ⟨?_, ?_⟩, ⟨?_, ?_⟩, ⟨hs, ?_, ?_⟩, ?_, ?_⟩
  · simp [base_add_records_events]
  · simp [base_delete_records_events, query_generic_events]
  · simp [base_delete_records_events, query_generic_events]
  · simp [base_update_row_events]
  · simp [base_update_row_events]
  · simp [sqlite_delete_records_events, query_generic_events]
  · simp [sqlite_update_row_events]
  · exact runEvents_committed_of_no_commit exec _ st hb
  · exact runEvents_committed_of_no_commit exec _ st hs

/-- C5: SQLiteDB.create_index formats the CREATE INDEX statement and then
returns without ever executing it or committing — its connection-event trace
is empty, unlike the base-class implementation, which executes the statement
and commits. -/
theorem C5_sqlite_create_index_dead_code :
    sqlite_create_index_events "mytable" "mycol" none = [] ∧
    base_create_index_events "mytable" "mycol" none =
      [DBEvent.execute "CREATE INDEX mycol_IDX ON mytable(mycol)" [],
       DBEvent.commit] := by
  decide

/-- C6: indexing an SQLRecord by a column name present in the row returns
that column's value; indexing by an absent name yields the not-found result;
and get(name, default) returns the stored value exactly when the name is
among the row's keys, the default exactly when it is absent. -/
theorem C6_record_lookup (rec : Row) (name : String) (d : PyVal) :
    (recContains rec name = true →
      ∃ v, recGetItem rec name = some v ∧ recGet rec name d = v) ∧
    (recContains rec name = false →
      recGetItem rec name = none ∧ recGet rec name d = d) := by
  induction rec with
  | nil =>
    exact ⟨fun h => by simp [recContains] at h, fun _ => ⟨rfl, rfl⟩⟩
  | cons kv rest ih =>
    have hgi : recGetItem (kv :: rest) name =
        if kv.1 == name then some kv.2 else recGetItem rest name := rfl
    have hcc : recContains (kv :: rest) name =
        ((kv.1 == name) || recContains rest name) := rfl
    by_cases hk : (kv.1 == name) = true
    · refine ⟨fun _ => ⟨kv.2, ?_, ?_⟩, fun hfalse => ?_⟩
      · rw [hgi, if_pos hk]
      · unfold recGet
        rw [hcc, hk, Bool.true_or, if_pos rfl, hgi, if_pos hk]
      · rw [hcc, hk, Bool.true_or] at hfalse
        exact Bool.noConfusion hfalse
    · have hk' : (kv.1 == name) = false := by simpa using hk
      constructor
      · intro h
        have h' : recContains rest name = true := by
          rw [hcc, hk', Bool.false_or] at h
          exact h
        obtain ⟨v, hv1, hv2⟩ := ih.1 h'
        refine ⟨v, ?_, ?_⟩
        · rw [hgi, if_neg hk]
          exact hv1
        · unfold recGet
          rw [hcc, hk', Bool.false_or, h', if_pos rfl, hgi, if_neg hk]
          unfold recGet at hv2
          rw [h', if_pos rfl] at hv2
          exact hv2
      · intro h
        have h' : recContains rest name = false := by
          rw [hcc, hk', Bool.false_or] at h
          exact h
        obtain ⟨h1, h2⟩ := ih.2 h'
        refine ⟨?_, ?_⟩
        · rw [hgi, if_neg hk]
          exact h1
        · unfold recGet
          rw [hcc, hk', Bool.false_or, h', if_neg Bool.false_ne_true]

/-- C6 witness: a one-column row looked up by its present and by an absent
column name. -/
theorem C6_witness :
    (∃ v, recGetItem [("a", PyVal.int 7)] "a" = some v ∧
      recGet [("a", PyVal.int 7)] "a" (PyVal.int 0) = v) ∧
    (recGetItem [("a", PyVal.int 7)] "b" = none ∧
      recGet [("a", PyVal.int 7)] "b" (PyVal.int 0) = PyVal.int 0) := by
  exact ⟨(C6_record_lookup [("a", PyVal.int 7)] "a" (PyVal.int 0)).1 (by decide),
    (C6_record_lookup [("a", PyVal.int 7)] "b" (PyVal.int 0)).2 (by decide)⟩

/-- C7: query_generic emits exactly one cursor execute and never a commit, so
the committed row store after it runs is whatever it was before — any commit
of a write statement is left to the higher-level helpers. -/
theorem C7_query_generic_never_commits (q : String) (v : List PyVal)
    (exec : String → List PyVal → List Row → List Row) (st : TxState) :
    DBEvent.commit ∉ query_generic_events q v ∧
    (runEvents exec st (query_generic_events q v)).committed = st.committed := by
  have h : DBEvent.commit ∉ query_generic_events q v := by
    simp [query_generic_events]
  exact ⟨h, runEvents_committed_of_no_commit exec _ st h⟩

/-- C10: when the first five characters of the left-stripped where-clause
spell "where" in any letter case — even as the prefix of a longer identifier
— build_sql_query, delete_records and update_row all delete those five
characters before re-prefixing " WHERE ", so the mangled remainder reaches
the query. -/
theorem C10_where_mangling (tc cc : StrOrList) (t w : String) (cd : Row)
    (h : pyUpper (pyTake (pyLstrip w) 5) = "WHERE")
    (h2 : pyDrop (pyLstrip w) 5 ≠ "") :
    build_sql_query tc cc (.str "") w "" "" "" =
      some ("SELECT " ++ flattenClause cc ++ " FROM " ++ flattenClause tc ++
        " WHERE " ++ pyDrop (pyLstrip w) 5) ∧
    delete_records_sql t w =
      "DELETE FROM " ++ t ++ (" WHERE " ++ pyDrop (pyLstrip w) 5) ∧
    update_row_sql "%s" t cd w =
      "UPDATE " ++ t ++ " SET " ++
        pyJoin ", " (cd.map (fun kv => kv.1 ++ " = " ++ "%s")) ++
        (" WHERE " ++ pyDrop (pyLstrip w) 5) := by
  have hw : w ≠ "" := by
    intro he
    subst he
    exact absurd h (by decide)
  have e := strip_where_of_kw w h
  refine ⟨?_, ?_, ?_⟩ <;>
    simp [build_sql_query, delete_records_sql, update_row_sql, e, hw, h2]

/-- C10 witness: the clause "whereabouts > 1" — whose first five letters spell
"where" without a word boundary — is mangled to "abouts > 1" by all three
call paths. -/
theorem C10_witness :
    build_sql_query (.str "t") (.str "*") (.str "") "whereabouts > 1" "" "" "" =
      some "SELECT * FROM t WHERE abouts > 1" ∧
    delete_records_sql "t" "whereabouts > 1" =
      "DELETE FROM t WHERE abouts > 1" ∧
    update_row_sql "%s" "t" [("x", PyVal.int 1)] "whereabouts > 1" =
      "UPDATE t SET x = %s WHERE abouts > 1" := by
  obtain ⟨a, b, c⟩ := C10_where_mangling (.str "t") (.str "*") "t"
    "whereabouts > 1" [("x", PyVal.int 1)] (by decide) (by decide)
  exact ⟨a.trans (by decide), b.trans (by decide), c.trans (by decide)⟩
